import Mathlib

set_option maxHeartbeats 1000000

namespace LostAndFound

/-!
Shallow embedding of the live-tracking core of the lostandfound client:
campus geofence construction and point classification (`CampusManager` in
src/unnamed/part_005), device-state reconciliation (`fetchDevices` /
`updateDeviceLocation` in src/src/Dashboard.js and src/unnamed/part_003),
snapshot validation (`fetchDevices` in src/unnamed/part_002), sample
processing (`processRealTimeLocation` / `calculateMovement` in
src/unnamed/part_002), and viewport stabilization (`shouldUpdateMap`,
`calculateMapCenter`, `calculateZoom`, `StableMapUpdater` in
src/unnamed/part_004).  Coordinates are modelled as exact rationals
(JavaScript doubles) except for the trigonometric haversine/bearing code,
which is modelled over the reals.
-/

/-- Coordinate pair `(lat, lng)` as stored in the polygon arrays of part_005. -/
abbrev Coord := ℚ × ℚ

/-- Source `config.CAMPUS_SETTINGS.CAMPUS_WIDTH = 0.00018` (src/src/config.js). -/
def CAMPUS_WIDTH : ℚ := 18 / 100000

/-- Source `config.CAMPUS_SETTINGS.CAMPUS_HEIGHT = 0.00018` (src/src/config.js). -/
def CAMPUS_HEIGHT : ℚ := 18 / 100000

/-- Hardcoded fallback origin `{ latitude: 6.9271, longitude: 79.8612 }`
(src/unnamed/part_005 line 23). -/
def defaultOrigin : Coord := (69271 / 10000, 798612 / 10000)

/-- Campus bounds `[southWest, northEast]` as produced by
`CampusManager.generateCampusBounds`. -/
structure Bounds where
  southWest : Coord
  northEast : Coord
deriving DecidableEq, Repr

/-- Source `CampusManager.generateCampusBounds` (src/unnamed/part_005 lines 21-40):
a missing `userLocation` is replaced by the hardcoded default origin, then a
rectangle of size `CAMPUS_WIDTH x CAMPUS_HEIGHT` is centered on it. -/
def generateCampusBounds (userLocation : Option Coord) : Bounds :=
  let loc := userLocation.getD defaultOrigin
  { southWest := (loc.1 - CAMPUS_HEIGHT / 2, loc.2 - CAMPUS_WIDTH / 2)
    northEast := (loc.1 + CAMPUS_HEIGHT / 2, loc.2 + CAMPUS_WIDTH / 2) }

/-- Second `generateCampusBounds` variant (src/unnamed/part_005 lines 838-857):
a missing origin yields the fixed rectangle
`[[6.9270, 79.8610], [6.9272, 79.8612]]`. -/
def generateCampusBoundsFixedFallback (campusCenterLocation : Option Coord) : Bounds :=
  match campusCenterLocation with
  | none =>
      { southWest := (69270 / 10000, 798610 / 10000)
        northEast := (69272 / 10000, 798612 / 10000) }
  | some loc =>
      { southWest := (loc.1 - CAMPUS_HEIGHT / 2, loc.2 - CAMPUS_WIDTH / 2)
        northEast := (loc.1 + CAMPUS_HEIGHT / 2, loc.2 + CAMPUS_WIDTH / 2) }

/-- Source `CampusManager.generateRectangle` (src/unnamed/part_005 lines 99-110):
a 5-vertex closed ring (first vertex repeated last), vertices as `(lat, lng)`. -/
def generateRectangle (centerLat centerLng offsetLat offsetLng width height : ℚ) :
    List Coord :=
  let lat := centerLat + offsetLat
  let lng := centerLng + offsetLng
  [(lat - height / 2, lng - width / 2),
   (lat - height / 2, lng + width / 2),
   (lat + height / 2, lng + width / 2),
   (lat + height / 2, lng - width / 2),
   (lat - height / 2, lng - width / 2)]

/-- One campus zone (`sections` entries of part_005); only the fields the
classification logic reads are kept. -/
structure CampusSection where
  sid : String
  coordinates : List Coord
deriving DecidableEq, Repr

/-- Source `baseSize = 0.0000225` (src/unnamed/part_005 line 49). -/
def baseSize : ℚ := 225 / 10000000

/-- Source `CampusManager.generateCampusSections` (src/unnamed/part_005 lines 42-97):
the four zone rectangles, in definition order, built from the campus center. -/
def generateCampusSections (campusBounds : Bounds) : List CampusSection :=
  let centerLat := (campusBounds.southWest.1 + campusBounds.northEast.1) / 2
  let centerLng := (campusBounds.southWest.2 + campusBounds.northEast.2) / 2
  [{ sid := "library"
     coordinates := generateRectangle centerLat centerLng (baseSize * 12 / 10)
       (-(baseSize * 12 / 10)) (baseSize * 2) (baseSize * 18 / 10) },
   { sid := "lab"
     coordinates := generateRectangle centerLat centerLng (baseSize * 12 / 10)
       (baseSize * 12 / 10) (baseSize * 25 / 10) (baseSize * 2) },
   { sid := "classroom"
     coordinates := generateRectangle centerLat centerLng (-(baseSize * 12 / 10))
       (-(baseSize * 12 / 10)) (baseSize * 18 / 10) (baseSize * 16 / 10) },
   { sid := "admin"
     coordinates := generateRectangle centerLat centerLng (-(baseSize * 12 / 10))
       (baseSize * 12 / 10) (baseSize * 2) (baseSize * 18 / 10) }]

/-- One step of the ray-casting loop in `CampusManager.isPointInPolygon`
(src/unnamed/part_005 lines 200-211), for the edge `(polygon[i], polygon[j])`.
As in the source, `xi := polygon[i][1]` (the vertex longitude) and
`yi := polygon[i][0]` (the vertex latitude), while the comparisons use the
point as `(lat, lng)`: the vertex latitude is compared against the point
longitude and vice versa, exactly as written in the JavaScript. -/
def pipEdgeTest (lat lng : ℚ) (vi vj : Coord) : Bool :=
  let xi := vi.2
  let yi := vi.1
  let xj := vj.2
  let yj := vj.1
  (decide (yi > lng) != decide (yj > lng)) &&
    decide (lat < (xj - xi) * (lng - yi) / (yj - yi) + xi)

/-- The edge list traversed by the loop `for (i = 0, j = n-1; i < n; j = i++)`:
vertex `i` paired with vertex `j` (its predecessor, wrapping to the last
vertex at `i = 0`). -/
def edgePairs (polygon : List Coord) : List (Coord × Coord) :=
  polygon.zip (polygon.getLastD (0, 0) :: polygon)

/-- Source `CampusManager.isPointInPolygon` (src/unnamed/part_005 lines 200-211):
even-odd fold of `pipEdgeTest` over all edges, starting from `inside = false`. -/
def isPointInPolygon (lat lng : ℚ) (polygon : List Coord) : Bool :=
  (edgePairs polygon).foldl
    (fun inside e => if pipEdgeTest lat lng e.1 e.2 then !inside else inside) false

/-- Source `CampusManager.isInCampus` (src/unnamed/part_005 lines 179-189):
bounding-box containment against the campus bounds. -/
def isInCampus (campusBounds : Bounds) (lat lng : ℚ) : Bool :=
  decide (lat ≥ campusBounds.southWest.1) && decide (lat ≤ campusBounds.northEast.1) &&
    decide (lng ≥ campusBounds.southWest.2) && decide (lng ≤ campusBounds.northEast.2)

/-- Source `CampusManager.getCurrentSection` (src/unnamed/part_005 lines 191-198):
the first section, in definition order, whose polygon contains the point. -/
def getCurrentSection (sections : List CampusSection) (lat lng : ℚ) :
    Option CampusSection :=
  sections.find? (fun s => isPointInPolygon lat lng s.coordinates)

/-- The state built by the `CampusManager` constructor. -/
structure CampusManager where
  campusBounds : Bounds
  sections : List CampusSection
deriving DecidableEq, Repr

/-- The `CampusManager` constructor (src/unnamed/part_005 lines 14-19). -/
def mkCampusManager (userLocation : Option Coord) : CampusManager :=
  let bounds := generateCampusBounds userLocation
  { campusBounds := bounds, sections := generateCampusSections bounds }

/-- The campus built from the default origin. -/
def defaultCampus : CampusManager := mkCampusManager (some defaultOrigin)

/-- Centroid of the library section's rectangle: campus center shifted by
`(baseSize*1.2, -baseSize*1.2)`. -/
def libraryCentroid : Coord :=
  (69271 / 10000 + 27 / 1000000, 798612 / 10000 - 27 / 1000000)

/-! ### Device records and state reconciliation -/

/-- A JavaScript number: a rational value together with a NaN flag. -/
structure JsNum where
  val : ℚ
  isNaN : Bool
deriving DecidableEq, Repr

/-- JavaScript truthiness of a number: `0` and `NaN` are falsy. -/
def JsNum.truthy (n : JsNum) : Bool :=
  ! n.isNaN && decide (n.val ≠ 0)

/-- The location payload stored in `device.last_location`; only the fields
the reconciliation and viewport code reads are kept. -/
structure DeviceLocation where
  latitude : JsNum
  longitude : JsNum
  is_mobile : Bool
deriving DecidableEq, Repr

/-- A device record of the authoritative device map.  `last_updated` is a
timestamp in abstract ticks. -/
structure Device where
  device_id : String
  last_location : Option DeviceLocation
  last_updated : Nat
  is_mobile : Bool
deriving DecidableEq, Repr

/-- Snapshot merge of `fetchDevices` (src/src/Dashboard.js lines 510-529):
each fetched record replaces the local one; when both the existing local
record and the fetched record carry a location, only the local location's
`is_mobile` flag is copied onto the fetched location.  No timestamps are
compared. -/
def fetchMergeSnapshot (devices : List Device) (data : List Device) : List Device :=
  data.map fun device =>
    match devices.find? (fun d => d.device_id == device.device_id) with
    | some existingDevice =>
        match existingDevice.last_location, device.last_location with
        | some exLoc, some devLoc =>
            { device with last_location := some { devLoc with is_mobile := exLoc.is_mobile } }
        | _, _ => device
    | none => device

/-- Validity filter of `fetchDevices` (src/unnamed/part_002 lines 440-448):
keep a record only if it has a location whose latitude and longitude are
numbers that are not NaN and not zero.  No range check is performed. -/
def validSnapshotDevice (device : Device) : Bool :=
  match device.last_location with
  | none => false
  | some loc =>
      ! loc.latitude.isNaN && ! loc.longitude.isNaN &&
        decide (loc.latitude.val ≠ 0) && decide (loc.longitude.val ≠ 0)

/-- Source `fetchDevices` snapshot filtering (src/unnamed/part_002 lines 436-454):
`setDevices(validDevices)` with `validDevices = data.filter(...)`. -/
def fetchValidDevices (data : List Device) : List Device :=
  data.filter validSnapshotDevice

/-- Per-record step of the live-update merge in `updateDeviceLocation`
(src/unnamed/part_003 lines 279-288 and src/src/Dashboard.js lines 446-455):
the record with the matching id gets the new location, timestamp and
`is_mobile` flag; every other record is returned unchanged. -/
def applyLiveUpdate (deviceId : String) (location : DeviceLocation) (now : Nat)
    (d : Device) : Device :=
  if d.device_id == deviceId then
    { d with last_location := some location, last_updated := now,
             is_mobile := location.is_mobile }
  else d

/-- The fresh record appended when the updated id is absent
(src/unnamed/part_003 lines 291-300); name/type fields are cosmetic and
omitted. -/
def newDeviceRecord (deviceId : String) (location : DeviceLocation) (now : Nat) : Device :=
  { device_id := deviceId, last_location := some location, last_updated := now,
    is_mobile := location.is_mobile }

/-- Local state update of `updateDeviceLocation` (src/unnamed/part_003 lines
278-304, src/src/Dashboard.js lines 445-471): map the update over the list,
then append a fresh record if the id was absent. -/
def updateDeviceLocation (prevDevices : List Device) (deviceId : String)
    (location : DeviceLocation) (now : Nat) : List Device :=
  let updatedDevices := prevDevices.map (applyLiveUpdate deviceId location now)
  if updatedDevices.any (fun d => d.device_id == deviceId) then updatedDevices
  else updatedDevices ++ [newDeviceRecord deviceId location now]

/-! ### Tracking-session registry -/

/-- A watch or timer handle held in `deviceTrackersRef`
(src/unnamed/part_003 line 120: `{ type: 'gps', id: watchId }`). -/
structure TrackerHandle where
  kind : String
  hid : Nat
deriving DecidableEq, Repr

/-- The tracker registry: the `deviceTrackersRef` map plus the allocator of
fresh watch/timer ids. -/
structure TrackerState where
  trackers : List (String × TrackerHandle)
  nextWatchId : Nat
deriving DecidableEq, Repr

/-- Source `deviceTrackersRef.current.has(device_id)` (src/src/Dashboard.js line 533). -/
def hasTracker (s : TrackerState) (deviceId : String) : Bool :=
  (s.trackers.find? (fun e => e.1 == deviceId)).isSome

/-- Starting a watch and registering it, as in `startMobileGPSTracking` /
`startAdditionalMobileTracking` (src/unnamed/part_003 lines 105-120, 356-378):
a fresh handle is allocated and `deviceTrackersRef.current.set(deviceId, ...)`
records it. -/
def registerTracker (s : TrackerState) (deviceId : String) : TrackerState :=
  { trackers := (deviceId, { kind := "gps", hid := s.nextWatchId }) :: s.trackers,
    nextWatchId := s.nextWatchId + 1 }

/-- The guarded session start of the `fetchDevices` loop
(src/src/Dashboard.js lines 532-537, src/unnamed/part_003 lines 335-339):
tracking is started only if no tracker is registered for the id. -/
def startSessionIfNew (s : TrackerState) (deviceId : String) : TrackerState :=
  if hasTracker s deviceId then s else registerTracker s deviceId

/-- Number of registered sessions for a given device id. -/
def sessionCount (s : TrackerState) (deviceId : String) : Nat :=
  (s.trackers.filter (fun e => e.1 == deviceId)).length

/-! ### Viewport stabilization -/

/-- Latitude read from `device.last_location.latitude` (0 when absent; the
callers only reach this through the validity filter). -/
def latOf (d : Device) : ℚ :=
  (d.last_location.map (fun l => l.latitude.val)).getD 0

/-- Longitude read from `device.last_location.longitude`. -/
def lngOf (d : Device) : ℚ :=
  (d.last_location.map (fun l => l.longitude.val)).getD 0

/-- The truthiness filter of `StableMapUpdater` (src/unnamed/part_004 lines
326-330): `device.last_location && latitude && longitude`. -/
def hasTruthyLocation (d : Device) : Bool :=
  match d.last_location with
  | none => false
  | some loc => loc.latitude.truthy && loc.longitude.truthy

/-- Source `Math.min` over a spread of a list (callers pass nonempty lists). -/
def jsMinList (l : List ℚ) : ℚ := l.foldl min (l.headD 0)

/-- Source `Math.max` over a spread of a list (callers pass nonempty lists). -/
def jsMaxList (l : List ℚ) : ℚ := l.foldl max (l.headD 0)

/-- Source `calculateMapCenter` (src/unnamed/part_004 lines 422-436): default for no
devices, the device's own position for one, and the midpoint of the min/max
latitudes and longitudes otherwise. -/
def calculateMapCenter (validDevices : List Device) : ℚ × ℚ :=
  match validDevices with
  | [] => defaultOrigin
  | [device] => (latOf device, lngOf device)
  | devices =>
      ((jsMinList (devices.map latOf) + jsMaxList (devices.map latOf)) / 2,
       (jsMinList (devices.map lngOf) + jsMaxList (devices.map lngOf)) / 2)

/-- Source `calculateZoom` (src/unnamed/part_004 lines 438-443). -/
def calculateZoom (validDevices : List Device) : Nat :=
  if validDevices.length ≤ 1 then 19
  else if validDevices.length = 2 then 18
  else if validDevices.length ≤ 5 then 17
  else 16

/-- An entry of `lastDevicePositions` (src/unnamed/part_004 lines 353-357). -/
structure LastPos where
  lat : ℚ
  lng : ℚ
  device_id : String
deriving DecidableEq, Repr

/-- Source `significantMoveThreshold = 0.0001` (src/unnamed/part_004 line 403). -/
def significantMoveThreshold : ℚ := 1 / 10000

/-- Per-device move test of `shouldUpdateMap` (src/unnamed/part_004 lines
408-413). -/
def movedSignificantly (d : Device) (p : LastPos) : Bool :=
  decide (|latOf d - p.lat| > significantMoveThreshold) ||
    decide (|lngOf d - p.lng| > significantMoveThreshold)

/-- Loop body of `shouldUpdateMap` for one current device: an unseen
`device_id` triggers an update, a seen one triggers only on a significant
move (src/unnamed/part_004 lines 405-417). -/
def deviceTriggersUpdate (lastPositions : List LastPos) (d : Device) : Bool :=
  match lastPositions.find? (fun p => p.device_id == d.device_id) with
  | some p => movedSignificantly d p
  | none => true

/-- Source `shouldUpdateMap` (src/unnamed/part_004 lines 399-420): count change or
empty committed snapshot short-circuits to true, otherwise any device
triggers. -/
def shouldUpdateMap (currentDevices : List Device) (lastPositions : List LastPos)
    (lastCount : Nat) : Bool :=
  if currentDevices.length ≠ lastCount then true
  else if lastPositions.isEmpty then true
  else currentDevices.any (deviceTriggersUpdate lastPositions)

/-- The recompute decision of the `StableMapUpdater` effect
(src/unnamed/part_004 lines 323-334): return early while `userInteracting`
or `updateInProgress`, otherwise recompute only when `shouldUpdateMap` holds
for the truthy-location devices and at least one such device exists. -/
def stableMapRecompute (devices : List Device) (lastPositions : List LastPos)
    (lastCount : Nat) (userInteracting updateInProgress : Bool) : Bool :=
  if userInteracting || updateInProgress then false
  else
    shouldUpdateMap (devices.filter hasTruthyLocation) lastPositions lastCount &&
      decide (0 < (devices.filter hasTruthyLocation).length)

/-! ### Haversine distance and movement (real-valued trigonometry) -/

open Classical in
/-- JavaScript `Math.atan2 (y, x)` via the standard piecewise definition. -/
noncomputable def atan2 (y x : ℝ) : ℝ :=
  if 0 < x then Real.arctan (y / x)
  else if x < 0 ∧ 0 ≤ y then Real.arctan (y / x) + Real.pi
  else if x < 0 ∧ y < 0 then Real.arctan (y / x) - Real.pi
  else if x = 0 ∧ 0 < y then Real.pi / 2
  else if x = 0 ∧ y < 0 then -(Real.pi / 2)
  else 0

/-- The `a` term of the haversine formula, shared verbatim by
`CampusManager.calculateDistance` (src/unnamed/part_005 lines 213-223) and
the inline distance of `calculateMovement` (src/unnamed/part_002 lines
200-210): `sin(dLat/2)^2 + cos(lat1)*cos(lat2)*sin(dLng/2)^2` with angles in
radians. -/
noncomputable def haversineA (lat1 lng1 lat2 lng2 : ℝ) : ℝ :=
  Real.sin ((lat2 - lat1) * Real.pi / 180 / 2) *
      Real.sin ((lat2 - lat1) * Real.pi / 180 / 2) +
    Real.cos (lat1 * Real.pi / 180) * Real.cos (lat2 * Real.pi / 180) *
      Real.sin ((lng2 - lng1) * Real.pi / 180 / 2) *
      Real.sin ((lng2 - lng1) * Real.pi / 180 / 2)

/-- Source `CampusManager.calculateDistance` (src/unnamed/part_005 lines 213-223):
`R * 2 * atan2(sqrt a, sqrt(1-a))` with Earth radius 6,371,000 m. -/
noncomputable def calculateDistance (lat1 lng1 lat2 lng2 : ℝ) : ℝ :=
  6371000 * (2 * atan2 (Real.sqrt (haversineA lat1 lng1 lat2 lng2))
    (Real.sqrt (1 - haversineA lat1 lng1 lat2 lng2)))

/-- The coordinate payload of a geolocation callback. -/
structure GeoCoords where
  latitude : ℝ
  longitude : ℝ
  accuracy : ℝ
  altitude : Option ℝ
  heading : Option ℝ
  speed : Option ℝ

/-- A geolocation position sample (`position` argument of the callbacks). -/
structure GeoPosition where
  coords : GeoCoords
  timestamp : ℝ

open Classical in
/-- JavaScript truncating remainder `a % b` for the heading normalization. -/
noncomputable def jsFmod (a b : ℝ) : ℝ :=
  a - b * (if 0 ≤ a / b then ((⌊a / b⌋ : ℤ) : ℝ) else (((-⌊-(a / b)⌋ : ℤ)) : ℝ))

open Classical in
/-- JavaScript `v || fallback` on an optional number: `null`/`undefined` and
`0` are falsy. -/
noncomputable def jsOr (v : Option ℝ) (fallback : ℝ) : ℝ :=
  match v with
  | none => fallback
  | some h => if h = 0 then fallback else h

open Classical in
/-- Source `getGPSQuality` (src/unnamed/part_002 lines 350-355). -/
noncomputable def getGPSQuality (accuracy : ℝ) : String :=
  if accuracy < 5 then "excellent"
  else if accuracy < 15 then "good"
  else if accuracy < 30 then "moderate"
  else "poor"

open Classical in
/-- Source `calculateMovement` (src/unnamed/part_002 lines 194-225): zero movement
without a previous sample or with a zero time delta, otherwise haversine
distance over elapsed seconds and an `atan2` bearing normalized to
[0, 360). -/
noncomputable def calculateMovement (currentPosition : GeoPosition)
    (lastPosition : Option GeoPosition) : ℝ × ℝ :=
  match lastPosition with
  | none => (0, 0)
  | some lastPosition =>
      if (currentPosition.timestamp - lastPosition.timestamp) / 1000 = 0 then (0, 0)
      else
        (calculateDistance lastPosition.coords.latitude lastPosition.coords.longitude
            currentPosition.coords.latitude currentPosition.coords.longitude /
          ((currentPosition.timestamp - lastPosition.timestamp) / 1000),
         jsFmod
           (atan2
              (Real.sin ((currentPosition.coords.longitude -
                  lastPosition.coords.longitude) * Real.pi / 180) *
                Real.cos (currentPosition.coords.latitude * Real.pi / 180))
              (Real.cos (lastPosition.coords.latitude * Real.pi / 180) *
                  Real.sin (currentPosition.coords.latitude * Real.pi / 180) -
                Real.sin (lastPosition.coords.latitude * Real.pi / 180) *
                  Real.cos (currentPosition.coords.latitude * Real.pi / 180) *
                  Real.cos ((currentPosition.coords.longitude -
                    lastPosition.coords.longitude) * Real.pi / 180)) *
             180 / Real.pi + 360) 360)

/-- The location object built by `processRealTimeLocation` and handed to
`updateDeviceLocation` (src/unnamed/part_002 lines 230-246); the constant
city/country strings are omitted. -/
structure LiveLocation where
  latitude : ℝ
  longitude : ℝ
  accuracy : ℝ
  altitude : Option ℝ
  heading : ℝ
  speed : ℝ
  source : String
  is_mobile : Bool
  gps_quality : String
  movement_detected : Bool

open Classical in
/-- Source `processRealTimeLocation` (src/unnamed/part_002 lines 227-262): movement
is derived from the previous sample when present, the location object is
built from the candidate, and `updateDeviceLocation` is invoked with it
unconditionally — no distance, heading or speed threshold appears anywhere
in the sources.  The returned value is exactly the propagated update. -/
noncomputable def processRealTimeLocation (lastPosition : Option GeoPosition)
    (position : GeoPosition) (source : String) : LiveLocation :=
  let movement :=
    match lastPosition with
    | some lp => calculateMovement position (some lp)
    | none => (0, 0)
  { latitude := position.coords.latitude
    longitude := position.coords.longitude
    accuracy := position.coords.accuracy
    altitude := position.coords.altitude
    heading := jsOr position.coords.heading movement.2
    speed := jsOr position.coords.speed movement.1
    source := source
    is_mobile := true
    gps_quality := getGPSQuality position.coords.accuracy
    movement_detected := decide (movement.1 > (0.1 : ℝ)) }

/-- The identical previous/candidate sample of the C3 counterexample:
`(6.9271, 79.8612)` with heading 10 and speed 0. -/
noncomputable def sampleT0 : GeoPosition :=
  { coords := { latitude := 6.9271, longitude := 79.8612, accuracy := 5,
                altitude := none, heading := some 10, speed := some 0 }
    timestamp := 1000 }

/-! ### Concrete records used by counterexamples and witnesses -/

/-- A locally tracked record for device `X`, carrying the newer timestamp 2. -/
def deviceXLive : Device :=
  { device_id := "X"
    last_location := some { latitude := { val := 2, isNaN := false }
                            longitude := { val := 2, isNaN := false }
                            is_mobile := true }
    last_updated := 2
    is_mobile := true }

/-- The snapshot record for device `X`, carrying the older timestamp 1. -/
def deviceXSnap : Device :=
  { device_id := "X"
    last_location := some { latitude := { val := 1, isNaN := false }
                            longitude := { val := 1, isNaN := false }
                            is_mobile := false }
    last_updated := 1
    is_mobile := false }

/-- A snapshot record whose latitude 100 is outside the valid range [-90, 90]. -/
def deviceOutOfRange : Device :=
  { device_id := "Z"
    last_location := some { latitude := { val := 100, isNaN := false }
                            longitude := { val := 79, isNaN := false }
                            is_mobile := false }
    last_updated := 0
    is_mobile := false }

/-- A location payload whose latitude is NaN. -/
def nanLoc : DeviceLocation :=
  { latitude := { val := 0, isNaN := true }
    longitude := { val := 79, isNaN := false }
    is_mobile := false }

/-- A snapshot record whose latitude is NaN. -/
def deviceNaNLat : Device :=
  { device_id := "N"
    last_location := some nanLoc
    last_updated := 0
    is_mobile := false }

/-- A well-formed record for device `A`. -/
def deviceA : Device :=
  { device_id := "A"
    last_location := some { latitude := { val := 7, isNaN := false }
                            longitude := { val := 80, isNaN := false }
                            is_mobile := true }
    last_updated := 3
    is_mobile := true }

/-- A location payload used by witnesses. -/
def locationB : DeviceLocation :=
  { latitude := { val := 8, isNaN := false }
    longitude := { val := 81, isNaN := false }
    is_mobile := false }

/-- The empty tracker registry. -/
def trackerS0 : TrackerState := { trackers := [], nextWatchId := 0 }

/-- C1: evaluation of the classifier at the failing input.  The library
section is the first zone of the default campus and `libraryCentroid` is the
exact center of its rectangle (and lies inside the campus bounds), yet
`getCurrentSection` classifies it into no zone: the ray-cast in
`isPointInPolygon` compares vertex latitudes (about 6.927) with the point's
longitude (about 79.861), so no edge ever crosses and every containment test
is false.  A point outside the campus bounds rectangle is still reported
outside campus. -/
theorem getCurrentSection_misses_library_centroid :
    defaultCampus.sections.map CampusSection.sid = ["library", "lab", "classroom", "admin"] ∧
    isInCampus defaultCampus.campusBounds libraryCentroid.1 libraryCentroid.2 = true ∧
    getCurrentSection defaultCampus.sections libraryCentroid.1 libraryCentroid.2 = none ∧
    isPointInPolygon libraryCentroid.1 libraryCentroid.2
      ((defaultCampus.sections.headD ⟨"", []⟩).coordinates) = false ∧
    isInCampus defaultCampus.campusBounds 0 0 = false := by
  norm_num [defaultCampus, mkCampusManager, generateCampusBounds, generateCampusSections,
    generateRectangle, isInCampus, getCurrentSection, isPointInPolygon, edgePairs,
    pipEdgeTest, libraryCentroid, defaultOrigin, baseSize, CAMPUS_WIDTH, CAMPUS_HEIGHT,
    List.find?, List.foldl, List.zip, List.zipWith, List.getLastD]

/-- C8: constructing the campus from a missing origin falls back to the
hardcoded default coordinate pair and still produces well-formed campus
bounds and the four zones, so `isInCampus` and classification remain
defined; the second source variant's fixed fallback rectangle is likewise
well-formed. -/
theorem mkCampusManager_none_defaults :
    mkCampusManager none = mkCampusManager (some defaultOrigin) ∧
    (mkCampusManager none).sections.length = 4 ∧
    (mkCampusManager none).campusBounds.southWest.1 <
      (mkCampusManager none).campusBounds.northEast.1 ∧
    (mkCampusManager none).campusBounds.southWest.2 <
      (mkCampusManager none).campusBounds.northEast.2 ∧
    isInCampus (mkCampusManager none).campusBounds defaultOrigin.1 defaultOrigin.2 = true ∧
    (generateCampusBoundsFixedFallback none).southWest.1 <
      (generateCampusBoundsFixedFallback none).northEast.1 ∧
    (generateCampusBoundsFixedFallback none).southWest.2 <
      (generateCampusBoundsFixedFallback none).northEast.2 := by
  norm_num [mkCampusManager, generateCampusBounds, generateCampusBoundsFixedFallback,
    generateCampusSections, generateRectangle, isInCampus, defaultOrigin, baseSize,
    CAMPUS_WIDTH, CAMPUS_HEIGHT]

/-- C2 counterexample: merging a snapshot record for device `X` with
timestamp 1 into a device map whose local record for `X` has the newer
timestamp 2 retains the snapshot record (timestamp 1), not the newer one:
`fetchDevices` never compares `last_updated` values. -/
theorem fetchMergeSnapshot_drops_newer_local :
    deviceXSnap.last_updated < deviceXLive.last_updated ∧
    (fetchMergeSnapshot [deviceXLive] [deviceXSnap]).map Device.last_updated = [1] ∧
    fetchMergeSnapshot [deviceXLive] [deviceXSnap] ≠ [deviceXLive] := by
  refine ⟨by decide, ?_, ?_⟩ <;>
    simp [fetchMergeSnapshot, deviceXLive, deviceXSnap, List.find?]

/-- C2 amended: the merge is last-writer-wins by arrival order, not by
timestamp.  The snapshot merge keeps, for every device id in the snapshot,
the snapshot's record and timestamp verbatim regardless of local
timestamps (only the local location's `is_mobile` flag is copied over),
and the live-update path stamps the matching record with the update's own
time regardless of what was stored before. -/
theorem merge_is_last_writer_wins :
    (∀ (devices data : List Device),
      (fetchMergeSnapshot devices data).map (fun d => (d.device_id, d.last_updated)) =
        data.map (fun d => (d.device_id, d.last_updated))) ∧
    (∀ (devs : List Device) (deviceId : String) (location : DeviceLocation) (now : Nat),
      ∀ d ∈ updateDeviceLocation devs deviceId location now,
        d.device_id = deviceId → d.last_updated = now) := by
  constructor
  · intro devices data
    induction data with
    | nil => rfl
    | cons device t ih =>
      simp only [fetchMergeSnapshot, List.map_cons] at ih ⊢
      refine congrArg₂ List.cons ?_ ih
      cases h : devices.find? (fun d => d.device_id == device.device_id) with
      | none => rfl
      | some ex =>
        cases hex : ex.last_location <;> cases hdev : device.last_location <;>
          simp [h, hex, hdev]
  · intro devs deviceId location now d hd hid
    rw [updateDeviceLocation] at hd
    set f := applyLiveUpdate deviceId location now with hf
    by_cases hany : (devs.map f).any (fun d => d.device_id == deviceId) = true
    · rw [if_pos hany] at hd
      obtain ⟨a, _, rfl⟩ := List.mem_map.mp hd
      rw [hf, applyLiveUpdate]
      by_cases ha : a.device_id == deviceId
      · simp [ha]
      · exfalso
        apply ha
        rw [hf, applyLiveUpdate] at hid
        simp only [ha, if_neg, Bool.false_eq_true, ite_false] at hid
        simp [hid]
    · rw [if_neg hany] at hd
      rcases List.mem_append.mp hd with hmem | hmem
      · obtain ⟨a, _, rfl⟩ := List.mem_map.mp hmem
        rw [hf, applyLiveUpdate]
        by_cases ha : a.device_id == deviceId
        · simp [ha]
        · exfalso
          apply ha
          rw [hf, applyLiveUpdate] at hid
          simp only [ha, if_neg, Bool.false_eq_true, ite_false] at hid
          simp [hid]
      · rw [List.mem_singleton.mp hmem, newDeviceRecord]

/-- Witness for the amended C2 theorem at concrete records. -/
theorem merge_is_last_writer_wins_witness :
    (fetchMergeSnapshot [deviceXLive] [deviceXSnap]).map
        (fun d => (d.device_id, d.last_updated)) = [("X", 1)] ∧
    (newDeviceRecord "B" locationB 5).last_updated = 5 := by
  constructor
  · have h := merge_is_last_writer_wins.1 [deviceXLive] [deviceXSnap]
    rw [h]
    rfl
  · exact merge_is_last_writer_wins.2 [] "B" locationB 5 _
      (by simp [updateDeviceLocation]) rfl

/-- C6 counterexample: a record whose latitude 100 is outside the valid
range [-90, 90] passes the `fetchDevices` validity filter and appears in the
resulting device set: the filter checks only NaN and zero, never coordinate
ranges. -/
theorem fetchValidDevices_keeps_out_of_range :
    validSnapshotDevice deviceOutOfRange = true ∧
    fetchValidDevices [deviceOutOfRange] = [deviceOutOfRange] ∧
    (90 : ℚ) < 100 := by
  refine ⟨?_, ?_, by norm_num⟩ <;>
    norm_num [validSnapshotDevice, fetchValidDevices, deviceOutOfRange, List.filter]

/-- C6 amended: a candidate record whose latitude or longitude is NaN, or
whose latitude or longitude equals zero, is rejected by the snapshot
validity filter and never appears in the filtered device set; no range
validation is performed. -/
theorem invalid_sample_never_in_device_set (data : List Device) (device : Device)
    (loc : DeviceLocation) (hloc : device.last_location = some loc)
    (hbad : loc.latitude.isNaN = true ∨ loc.longitude.isNaN = true ∨
            loc.latitude.val = 0 ∨ loc.longitude.val = 0) :
    device ∉ fetchValidDevices data := by
  intro hmem
  rw [fetchValidDevices, List.mem_filter] at hmem
  have hval := hmem.2
  rw [validSnapshotDevice, hloc] at hval
  rcases hbad with h | h | h | h <;> simp [h] at hval

/-- Witness for the amended C6 theorem: the NaN-latitude record is dropped. -/
theorem invalid_sample_never_in_device_set_witness :
    deviceNaNLat.last_location = some nanLoc ∧ nanLoc.latitude.isNaN = true ∧
    deviceNaNLat ∉ fetchValidDevices [deviceNaNLat] :=
  ⟨rfl, rfl,
    invalid_sample_never_in_device_set [deviceNaNLat] deviceNaNLat nanLoc rfl (Or.inl rfl)⟩

/-- Registering a tracker makes the id present in the registry. -/
theorem hasTracker_registerTracker (s : TrackerState) (deviceId : String) :
    hasTracker (registerTracker s deviceId) deviceId = true := by
  simp [hasTracker, registerTracker, List.find?]

/-- A registry without a tracker for an id has session count zero there. -/
theorem sessionCount_eq_zero_of_not_hasTracker (s : TrackerState) (deviceId : String)
    (h : hasTracker s deviceId = false) : sessionCount s deviceId = 0 := by
  rw [sessionCount, List.length_eq_zero, List.filter_eq_nil_iff]
  intro e he
  cases hfind : s.trackers.find? (fun e => e.1 == deviceId) with
  | none => exact List.find?_eq_none.mp hfind e he
  | some v => rw [hasTracker, hfind] at h; simp at h

/-- A registry holding a tracker for an id has session count at least one. -/
theorem one_le_sessionCount_of_hasTracker (s : TrackerState) (deviceId : String)
    (h : hasTracker s deviceId = true) : 1 ≤ sessionCount s deviceId := by
  rw [hasTracker] at h
  cases hfind : s.trackers.find? (fun e => e.1 == deviceId) with
  | none => rw [hfind] at h; simp at h
  | some v =>
    have hmem : v ∈ s.trackers := List.mem_of_find?_eq_some hfind
    have hp := List.find?_some hfind
    have : v ∈ s.trackers.filter (fun e => e.1 == deviceId) :=
      List.mem_filter.mpr ⟨hmem, hp⟩
    rw [sessionCount]
    exact List.length_pos.mpr (List.ne_nil_of_mem this)

/-- One guarded session start leaves exactly one registered session. -/
theorem sessionCount_startSessionIfNew (s : TrackerState) (deviceId : String)
    (h : sessionCount s deviceId ≤ 1) :
    sessionCount (startSessionIfNew s deviceId) deviceId = 1 := by
  rw [startSessionIfNew]
  cases htr : hasTracker s deviceId with
  | true =>
    rw [if_pos rfl]
    exact Nat.le_antisymm h (one_le_sessionCount_of_hasTracker s deviceId htr)
  | false =>
    rw [if_neg (by simp)]
    have h0 := sessionCount_eq_zero_of_not_hasTracker s deviceId htr
    rw [sessionCount] at h0
    rw [sessionCount, registerTracker]
    simp only [List.filter_cons]
    rw [if_pos (by simp)]
    simp [h0]

/-- The guarded session start is idempotent on the registry state. -/
theorem startSessionIfNew_idem (s : TrackerState) (deviceId : String) :
    startSessionIfNew (startSessionIfNew s deviceId) deviceId =
      startSessionIfNew s deviceId := by
  unfold startSessionIfNew
  cases h : hasTracker s deviceId <;> simp [h, hasTracker_registerTracker]

/-- C7: the guarded session start of the `fetchDevices` loop
(`!deviceTrackersRef.current.has(device_id)`) is idempotent, and after any
positive number of start calls for a device id, exactly one watch/timer
handle is registered for it in the tracker map. -/
theorem startSession_registers_exactly_one (s : TrackerState) (deviceId : String)
    (n : Nat) (hcount : sessionCount s deviceId ≤ 1) (hn : 1 ≤ n) :
    sessionCount ((fun t => startSessionIfNew t deviceId)^[n] s) deviceId = 1 ∧
    startSessionIfNew (startSessionIfNew s deviceId) deviceId =
      startSessionIfNew s deviceId := by
  refine ⟨?_, startSessionIfNew_idem s deviceId⟩
  obtain ⟨m, rfl⟩ : ∃ m, n = m + 1 := ⟨n - 1, by omega⟩
  clear hn
  induction m with
  | zero => simpa using sessionCount_startSessionIfNew s deviceId hcount
  | succ k ih =>
    rw [Function.iterate_succ_apply']
    exact sessionCount_startSessionIfNew _ _ (le_of_eq ih)

/-- Witness for C7: starting the session twice from the empty registry
leaves exactly one registered session for the device. -/
theorem startSession_registers_exactly_one_witness :
    sessionCount trackerS0 "device_1" ≤ 1 ∧
    (sessionCount ((fun t => startSessionIfNew t "device_1")^[2] trackerS0) "device_1" = 1 ∧
     startSessionIfNew (startSessionIfNew trackerS0 "device_1") "device_1" =
       startSessionIfNew trackerS0 "device_1") :=
  ⟨by decide, startSession_registers_exactly_one trackerS0 "device_1" 2 (by decide) (by decide)⟩

/-- Mapping a live update over the device list leaves the sublist of all
other device ids unchanged. -/
theorem filter_map_applyLiveUpdate (deviceId : String) (location : DeviceLocation)
    (now : Nat) (l : List Device) :
    (l.map (applyLiveUpdate deviceId location now)).filter
        (fun d => d.device_id != deviceId) =
      l.filter (fun d => d.device_id != deviceId) := by
  induction l with
  | nil => rfl
  | cons d t ih =>
    by_cases h : d.device_id = deviceId <;>
      simp [applyLiveUpdate, h, List.filter_cons, ih]

/-- A live update for an id absent from the list maps every record to itself. -/
theorem map_applyLiveUpdate_of_absent (deviceId : String) (location : DeviceLocation)
    (now : Nat) (l : List Device) (h : ∀ d ∈ l, d.device_id ≠ deviceId) :
    l.map (applyLiveUpdate deviceId location now) = l := by
  induction l with
  | nil => rfl
  | cons d t ih =>
    have hd : d.device_id ≠ deviceId := h d (List.mem_cons_self d t)
    rw [List.map_cons, ih (fun x hx => h x (List.mem_cons_of_mem d hx))]
    rw [applyLiveUpdate, if_neg (by simpa using hd)]

/-- C10: an accepted location update is frame-local.  The sublist of records
for every other device id is unchanged (same records, same order), and when
the updated id is absent a fresh record is appended after the untouched
existing records. -/
theorem updateDeviceLocation_frame (prevDevices : List Device) (deviceId : String)
    (location : DeviceLocation) (now : Nat) :
    ((updateDeviceLocation prevDevices deviceId location now).filter
        (fun d => d.device_id != deviceId) =
      prevDevices.filter (fun d => d.device_id != deviceId)) ∧
    ((∀ d ∈ prevDevices, d.device_id ≠ deviceId) →
      updateDeviceLocation prevDevices deviceId location now =
        prevDevices ++ [newDeviceRecord deviceId location now]) := by
  constructor
  · rw [updateDeviceLocation]
    by_cases hany :
        (prevDevices.map (applyLiveUpdate deviceId location now)).any
          (fun d => d.device_id == deviceId) = true
    · rw [if_pos hany]
      exact filter_map_applyLiveUpdate deviceId location now prevDevices
    · rw [if_neg hany, List.filter_append]
      rw [filter_map_applyLiveUpdate deviceId location now prevDevices]
      simp [newDeviceRecord]
  · intro h
    rw [updateDeviceLocation, map_applyLiveUpdate_of_absent deviceId location now _ h]
    rw [if_neg]
    simp only [List.any_eq_true, not_exists, not_and]
    intro d hd
    simp [h d hd]

/-- Witness for C10: updating an absent id appends one fresh record and
leaves the existing record untouched. -/
theorem updateDeviceLocation_frame_witness :
    (∀ d ∈ [deviceA], d.device_id ≠ "B") ∧
    updateDeviceLocation [deviceA] "B" locationB 5 =
      [deviceA] ++ [newDeviceRecord "B" locationB 5] :=
  ⟨by decide, (updateDeviceLocation_frame [deviceA] "B" locationB 5).2 (by decide)⟩

/-- A min-fold is bounded by its initial accumulator. -/
theorem foldl_min_le_init (l : List ℚ) (a : ℚ) : l.foldl min a ≤ a := by
  induction l generalizing a with
  | nil => exact le_refl a
  | cons x t ih => exact le_trans (ih (min a x)) (min_le_left a x)

/-- A min-fold is bounded by every list element. -/
theorem foldl_min_le_mem (l : List ℚ) (a x : ℚ) (hx : x ∈ l) : l.foldl min a ≤ x := by
  induction l generalizing a with
  | nil => cases hx
  | cons y t ih =>
    rcases List.mem_cons.mp hx with rfl | hmem
    · exact le_trans (foldl_min_le_init t (min a x)) (min_le_right a x)
    · exact ih (min a y) hmem

/-- A min-fold returns either its initial accumulator or a list element. -/
theorem foldl_min_mem (l : List ℚ) (a : ℚ) : l.foldl min a = a ∨ l.foldl min a ∈ l := by
  induction l generalizing a with
  | nil => exact Or.inl rfl
  | cons x t ih =>
    rcases ih (min a x) with h | h
    · rcases min_cases a x with ⟨he, _⟩ | ⟨he, _⟩
      · exact Or.inl (by rw [List.foldl_cons, h, he])
      · exact Or.inr (by rw [List.foldl_cons, h, he]; exact List.mem_cons_self x t)
    · exact Or.inr (List.mem_cons_of_mem x h)

/-- A max-fold dominates its initial accumulator. -/
theorem foldl_max_init_le (l : List ℚ) (a : ℚ) : a ≤ l.foldl max a := by
  induction l generalizing a with
  | nil => exact le_refl a
  | cons x t ih => exact le_trans (le_max_left a x) (ih (max a x))

/-- A max-fold dominates every list element. -/
theorem foldl_max_mem_le (l : List ℚ) (a x : ℚ) (hx : x ∈ l) : x ≤ l.foldl max a := by
  induction l generalizing a with
  | nil => cases hx
  | cons y t ih =>
    rcases List.mem_cons.mp hx with rfl | hmem
    · exact le_trans (le_max_right a x) (foldl_max_init_le t (max a x))
    · exact ih (max a y) hmem

/-- A max-fold returns either its initial accumulator or a list element. -/
theorem foldl_max_mem (l : List ℚ) (a : ℚ) : l.foldl max a = a ∨ l.foldl max a ∈ l := by
  induction l generalizing a with
  | nil => exact Or.inl rfl
  | cons x t ih =>
    rcases ih (max a x) with h | h
    · rcases max_cases a x with ⟨he, _⟩ | ⟨he, _⟩
      · exact Or.inl (by rw [List.foldl_cons, h, he])
      · exact Or.inr (by rw [List.foldl_cons, h, he]; exact List.mem_cons_self x t)
    · exact Or.inr (List.mem_cons_of_mem x h)

/-- The head-with-default of a nonempty list is an element of it. -/
theorem headD_mem_of_ne_nil (l : List ℚ) (hne : l ≠ []) : l.headD 0 ∈ l := by
  cases l with
  | nil => exact absurd rfl hne
  | cons x t => exact List.mem_cons_self x t

/-- The min over a nonempty list is an element and a lower bound. -/
theorem jsMinList_spec (l : List ℚ) (hne : l ≠ []) :
    jsMinList l ∈ l ∧ ∀ x ∈ l, jsMinList l ≤ x := by
  constructor
  · rcases foldl_min_mem l (l.headD 0) with h | h
    · rw [jsMinList, h]
      exact headD_mem_of_ne_nil l hne
    · exact h
  · intro x hx
    exact foldl_min_le_mem l (l.headD 0) x hx

/-- The max over a nonempty list is an element and an upper bound. -/
theorem jsMaxList_spec (l : List ℚ) (hne : l ≠ []) :
    jsMaxList l ∈ l ∧ ∀ x ∈ l, x ≤ jsMaxList l := by
  constructor
  · rcases foldl_max_mem l (l.headD 0) with h | h
    · rw [jsMaxList, h]
      exact headD_mem_of_ne_nil l hne
    · exact h
  · intro x hx
    exact foldl_max_mem_le l (l.headD 0) x hx

/-- C4: for one valid device the viewport centers on it with the maximum
zoom 19 (no zoom value ever exceeds 19); for two or more devices the center
is the midpoint of the minimum-plus-maximum latitude and longitude over the
valid positions, and the zoom steps down one bracket at a time:
19 for 1 device, 18 for 2, 17 for 3-5, 16 for more than 5. -/
theorem viewport_center_and_zoom (device : Device) (devs : List Device)
    (h2 : 2 ≤ devs.length) :
    (calculateMapCenter [device] = (latOf device, lngOf device) ∧
      calculateZoom [device] = 19 ∧ ∀ l : List Device, calculateZoom l ≤ 19) ∧
    (∃ a b, a ∈ devs.map latOf ∧ b ∈ devs.map latOf ∧
      (∀ x ∈ devs.map latOf, a ≤ x ∧ x ≤ b) ∧
      ∃ c d, c ∈ devs.map lngOf ∧ d ∈ devs.map lngOf ∧
        (∀ x ∈ devs.map lngOf, c ≤ x ∧ x ≤ d) ∧
        calculateMapCenter devs = ((a + b) / 2, (c + d) / 2)) ∧
    (devs.length = 2 → calculateZoom devs = 18) ∧
    (3 ≤ devs.length ∧ devs.length ≤ 5 → calculateZoom devs = 17) ∧
    (5 < devs.length → calculateZoom devs = 16) := by
  refine ⟨⟨rfl, rfl, ?_⟩, ?_, ?_, ?_, ?_⟩
  · intro l
    rw [calculateZoom]
    split_ifs <;> norm_num
  · match devs, h2 with
    | d1 :: d2 :: t, _ =>
      have hlat : (d1 :: d2 :: t).map latOf ≠ [] := by simp
      have hlng : (d1 :: d2 :: t).map lngOf ≠ [] := by simp
      obtain ⟨hamem, habd⟩ := jsMinList_spec _ hlat
      obtain ⟨hbmem, hbbd⟩ := jsMaxList_spec _ hlat
      obtain ⟨hcmem, hcbd⟩ := jsMinList_spec _ hlng
      obtain ⟨hdmem, hdbd⟩ := jsMaxList_spec _ hlng
      exact ⟨_, _, hamem, hbmem, fun x hx => ⟨habd x hx, hbbd x hx⟩,
        _, _, hcmem, hdmem, fun x hx => ⟨hcbd x hx, hdbd x hx⟩, rfl⟩
  · intro h
    rw [calculateZoom]
    split_ifs <;> omega
  · intro h
    rw [calculateZoom]
    split_ifs <;> omega
  · intro h
    rw [calculateZoom]
    split_ifs <;> omega

/-- Witness for C4 at a concrete one- and two-device set. -/
theorem viewport_center_and_zoom_witness :
    2 ≤ ([deviceA, deviceXLive] : List Device).length ∧
    calculateMapCenter [deviceA] = (latOf deviceA, lngOf deviceA) ∧
    calculateZoom [deviceA] = 19 ∧
    calculateZoom [deviceA, deviceXLive] = 18 :=
  ⟨by decide,
   (viewport_center_and_zoom deviceA [deviceA, deviceXLive] (by decide)).1.1,
   (viewport_center_and_zoom deviceA [deviceA, deviceXLive] (by decide)).1.2.1,
   (viewport_center_and_zoom deviceA [deviceA, deviceXLive] (by decide)).2.2.1 rfl⟩

/-- C5: as long as the committed snapshot is consistent (its stored count is
the length of the stored position list, which `StableMapUpdater` maintains),
a viewport recompute happens only when the valid-device count changed, or a
device id absent from the committed snapshot appears, or a tracked device
moved beyond the significant-move threshold in latitude or longitude; and
no recompute at all happens while `userInteracting` is true. -/
theorem viewport_update_only_on_change (devices : List Device)
    (lastPositions : List LastPos) (lastCount : Nat)
    (userInteracting updateInProgress : Bool)
    (hsnap : lastCount = lastPositions.length) :
    (userInteracting = true →
      stableMapRecompute devices lastPositions lastCount userInteracting
        updateInProgress = false) ∧
    (stableMapRecompute devices lastPositions lastCount userInteracting
        updateInProgress = true →
      ((devices.filter hasTruthyLocation).length ≠ lastCount ∨
       (∃ d ∈ devices.filter hasTruthyLocation,
          lastPositions.find? (fun p => p.device_id == d.device_id) = none) ∨
       (∃ d ∈ devices.filter hasTruthyLocation, ∃ p,
          lastPositions.find? (fun p => p.device_id == d.device_id) = some p ∧
          (|latOf d - p.lat| > significantMoveThreshold ∨
           |lngOf d - p.lng| > significantMoveThreshold)))) := by
  constructor
  · intro h
    simp [stableMapRecompute, h]
  · intro h
    rw [stableMapRecompute] at h
    by_cases hui : (userInteracting || updateInProgress) = true
    · rw [if_pos hui] at h
      exact absurd h (by simp)
    · rw [if_neg hui, Bool.and_eq_true] at h
      obtain ⟨hshould, hpos⟩ := h
      rw [decide_eq_true_eq] at hpos
      rw [shouldUpdateMap] at hshould
      by_cases hlen : (devices.filter hasTruthyLocation).length ≠ lastCount
      · exact Or.inl hlen
      · push_neg at hlen
        rw [if_neg (by simpa using hlen)] at hshould
        by_cases hemp : lastPositions.isEmpty = true
        · exfalso
          rw [List.isEmpty_iff.mp hemp] at hsnap
          simp only [List.length_nil] at hsnap
          omega
        · rw [if_neg hemp, List.any_eq_true] at hshould
          obtain ⟨d, hd, htrig⟩ := hshould
          rw [deviceTriggersUpdate] at htrig
          cases hfind : lastPositions.find? (fun p => p.device_id == d.device_id) with
          | none => exact Or.inr (Or.inl ⟨d, hd, hfind⟩)
          | some p =>
            rw [hfind] at htrig
            simp only [movedSignificantly, Bool.or_eq_true, decide_eq_true_eq] at htrig
            exact Or.inr (Or.inr ⟨d, hd, p, hfind, htrig⟩)

/-- Witness for C5: one freshly appearing valid device against the empty
committed snapshot. -/
theorem viewport_update_only_on_change_witness :
    (0 : Nat) = ([] : List LastPos).length ∧
    ((false = true →
        stableMapRecompute [deviceA] [] 0 false false = false) ∧
     (stableMapRecompute [deviceA] [] 0 false false = true →
       (([deviceA].filter hasTruthyLocation).length ≠ 0 ∨
        (∃ d ∈ [deviceA].filter hasTruthyLocation,
           ([] : List LastPos).find? (fun p => p.device_id == d.device_id) = none) ∨
        (∃ d ∈ [deviceA].filter hasTruthyLocation, ∃ p,
           ([] : List LastPos).find? (fun p => p.device_id == d.device_id) = some p ∧
           (|latOf d - p.lat| > significantMoveThreshold ∨
            |lngOf d - p.lng| > significantMoveThreshold))))) :=
  ⟨rfl, viewport_update_only_on_change [deviceA] [] 0 false false rfl⟩

/-- The `atan2` of 0 and 1 is 0 (the positive-x branch at slope 0). -/
theorem atan2_zero_one : atan2 0 1 = 0 := by
  simp only [atan2]
  rw [if_pos (by norm_num : (0 : ℝ) < 1)]
  norm_num

/-- The haversine `a` term vanishes on identical points. -/
theorem haversineA_self (lat lng : ℝ) : haversineA lat lng lat lng = 0 := by
  simp [haversineA, sub_self]

/-- The haversine distance of a point to itself is zero. -/
theorem calculateDistance_self (lat lng : ℝ) : calculateDistance lat lng lat lng = 0 := by
  simp only [calculateDistance, haversineA_self]
  rw [Real.sqrt_zero]
  norm_num [Real.sqrt_one, atan2_zero_one]

/-- Squared sine is invariant under negating the angle difference. -/
theorem sin_sq_sub_swap (x y : ℝ) :
    Real.sin ((x - y) * Real.pi / 180 / 2) * Real.sin ((x - y) * Real.pi / 180 / 2) =
      Real.sin ((y - x) * Real.pi / 180 / 2) * Real.sin ((y - x) * Real.pi / 180 / 2) := by
  have h : (x - y) * Real.pi / 180 / 2 = -((y - x) * Real.pi / 180 / 2) := by ring
  rw [h, Real.sin_neg]
  ring

/-- The haversine `a` term is symmetric in its two points. -/
theorem haversineA_comm (lat1 lng1 lat2 lng2 : ℝ) :
    haversineA lat1 lng1 lat2 lng2 = haversineA lat2 lng2 lat1 lng1 := by
  simp only [haversineA]
  have e1 := sin_sq_sub_swap lat2 lat1
  have e2 := sin_sq_sub_swap lng2 lng1
  linear_combination e1 + Real.cos (lat1 * Real.pi / 180) *
    Real.cos (lat2 * Real.pi / 180) * e2

/-- The haversine distance is symmetric in its two points. -/
theorem calculateDistance_comm (lat1 lng1 lat2 lng2 : ℝ) :
    calculateDistance lat1 lng1 lat2 lng2 = calculateDistance lat2 lng2 lat1 lng1 := by
  simp only [calculateDistance, haversineA_comm lat1 lng1 lat2 lng2]

/-- C9: the haversine distance function satisfies `d(A, A) = 0` for every
point `A` and `d(A, B) = d(B, A)` for every pair of points. -/
theorem calculateDistance_self_and_comm :
    (∀ lat lng : ℝ, calculateDistance lat lng lat lng = 0) ∧
    (∀ lat1 lng1 lat2 lng2 : ℝ,
      calculateDistance lat1 lng1 lat2 lng2 = calculateDistance lat2 lng2 lat1 lng1) :=
  ⟨calculateDistance_self, calculateDistance_comm⟩

/-- C3 counterexample: feeding `processRealTimeLocation` the identical
previous and candidate sample `sampleT0` still issues a device-location
update carrying the candidate's coordinates, although the haversine
distance is 0 (not above the 0.5 m threshold), the heading delta is 0 (not
above 5 degrees) and the speed delta is 0 (not above 0.5 m/s): the code has
no threshold filter, so a sub-threshold candidate is not rejected. -/
theorem process_propagates_below_thresholds :
    (processRealTimeLocation (some sampleT0) sampleT0 "continuous_gps").latitude =
      sampleT0.coords.latitude ∧
    (processRealTimeLocation (some sampleT0) sampleT0 "continuous_gps").longitude =
      sampleT0.coords.longitude ∧
    ¬(calculateDistance sampleT0.coords.latitude sampleT0.coords.longitude
        sampleT0.coords.latitude sampleT0.coords.longitude > 0.5 ∨
      |jsOr sampleT0.coords.heading 0 - jsOr sampleT0.coords.heading 0| > 5 ∨
      |jsOr sampleT0.coords.speed 0 - jsOr sampleT0.coords.speed 0| > 0.5) := by
  refine ⟨rfl, rfl, ?_⟩
  push_neg
  refine ⟨?_, ?_, ?_⟩
  · rw [calculateDistance_self]
    norm_num
  · rw [sub_self, abs_zero]
    norm_num
  · rw [sub_self, abs_zero]
    norm_num

/-- C3 amended: every candidate sample handed to `processRealTimeLocation`
is propagated unconditionally — the update passed to
`updateDeviceLocation` always exists and carries the candidate's own
coordinates and source, independent of any distance, heading, or speed
delta from the previous sample. -/
theorem process_always_propagates (lastPosition : Option GeoPosition)
    (position : GeoPosition) (source : String) :
    (processRealTimeLocation lastPosition position source).latitude =
      position.coords.latitude ∧
    (processRealTimeLocation lastPosition position source).longitude =
      position.coords.longitude ∧
    (processRealTimeLocation lastPosition position source).source = source :=
  ⟨rfl, rfl, rfl⟩

end LostAndFound
